import Mathlib

/-!
Verification of the k8s-mongo-operator reconciliation controller and restore
orchestrator against its natural-language specification.

The embedding models the Python sources
`mongoOperator/managers/EventManager.py`,
`mongoOperator/services/KubernetesService.py` and
`mongoOperator/helpers/RestoreHelper.py`.

External collaborators (the Kubernetes API client, the Google cloud storage
client, and the `mongorestore` executable) are modelled as environments of
response functions; every call the operator issues to a collaborator is
recorded in a trace of operations, and Python exceptions are modelled with an
explicit `Except` result channel.
-/

/-! ## Data model: the cluster custom object (V1MongoClusterConfiguration) -/

/-- A reference to one key inside a Kubernetes secret
(`spec.backups.gcs.service_account.secret_key_ref` in the YAML). -/
structure SecretKeyRef where
  name : String
  key : String
deriving DecidableEq

/-- The `service_account` attribute of the gcs backup configuration. -/
structure ServiceAccountRef where
  secret_key_ref : SecretKeyRef
deriving DecidableEq

/-- The `spec.backups.gcs` section of the cluster object.
`pfx` models the source attribute named prefix (a Lean keyword, so renamed);
`restore_bucket` and `pfx` are `Option String` because the Python code tests
them for truthiness (absent or empty means falsy); `restore_from` is
`Option String` because the source tests its presence with `hasattr`. -/
structure GcsSpec where
  bucket : String
  restore_bucket : Option String
  pfx : Option String
  restore_from : Option String
  service_account : ServiceAccountRef
deriving DecidableEq

/-- The `spec.backups` section of the cluster object. -/
structure BackupsSpec where
  gcs : GcsSpec
deriving DecidableEq

/-- The `spec.mongodb` section of the cluster object. -/
structure MongodbSpec where
  replicas : Nat
deriving DecidableEq

/-- The `spec` section of the cluster object. -/
structure ClusterSpec where
  mongodb : MongodbSpec
  backups : BackupsSpec
deriving DecidableEq

/-- Object metadata: `metadata.name` and `metadata.namespace`
(the latter renamed `ns` because namespace is a Lean keyword). -/
structure Metadata where
  name : String
  ns : String
deriving DecidableEq

/-- The cluster custom object handed to the event handlers
(`V1MongoClusterConfiguration`). -/
structure Cluster where
  metadata : Metadata
  spec : ClusterSpec
deriving DecidableEq

/-- Python truthiness fallback `a if a else b` / `a or b` for optional
strings: `none` and the empty string are falsy. -/
def pyOrDefault : Option String → String → String
  | none, d => d
  | some s, d => if s = "" then d else s

/-- Python `str` formatting of a value that may be `None`:
`"{}".format(None)` yields the string `"None"`. -/
def pyStr : Option String → String
  | none => "None"
  | some s => s

/-! ## Request bodies built by `KubernetesResources` (helpers/KubernetesResources.py) -/

/-- Modelled from the spec: the body constructor
`KubernetesResources.createService` lives in
`mongoOperator/helpers/KubernetesResources.py`, which is not among the given
sources. The spec treats it as a pure constructor of the desired-state body
for the network endpoint from the cluster object; its internal shape is out of
scope, so the embedding keeps it as the record of its input, which preserves
exactly its identity as a function. -/
structure V1Service where
  cluster : Cluster
deriving DecidableEq

/-- Modelled from the spec: `KubernetesResources.createService`, see `V1Service`. -/
def KubernetesResources.createService (cluster_object : Cluster) : V1Service :=
  ⟨cluster_object⟩

/-- Modelled from the spec: the secret body constructor
`KubernetesResources.createSecret` (same missing helper file); a pure record
of the secret name, its namespace and its data. -/
structure SecretBody where
  name : String
  ns : String
  data : List (String × String)
deriving DecidableEq

/-- Modelled from the spec: `KubernetesResources.createSecret`, see `SecretBody`. -/
def KubernetesResources.createSecret (secret_name : String) (ns : String)
    (secret_data : List (String × String)) : SecretBody :=
  ⟨secret_name, ns, secret_data⟩

/-- A Kubernetes secret as returned by the API (`V1Secret`). -/
structure V1Secret where
  name : String
  ns : String
  data : List (String × String)
deriving DecidableEq

/-- A Kubernetes deletion status object (`V1Status`). -/
structure V1Status where
  code : Nat
deriving DecidableEq

/-- A stateful set object as returned by the API. -/
structure V1StatefulSet where
  body : V1Service
deriving DecidableEq

/-! ## Collaborator calls and exceptions -/

/-- A backup artifact in the storage bucket: a blob with a name and its
creation timestamp (timestamps are modelled as naturals, e.g. `20210101`). -/
structure Blob where
  name : String
  time_created : Nat
deriving DecidableEq

/-- The error carried by the Python kubernetes client `ApiException`. -/
structure ApiErr where
  status : Nat
deriving DecidableEq

/-- The error carried by `subprocess.CalledProcessError`: the exit code and
the captured stderr/stdout (each may be `None` in Python). -/
structure CalledProcessErr where
  returncode : Int
  stderr : Option String
  stdout : Option String
deriving DecidableEq

/-- Every call the operator issues to an external collaborator, recorded in
order of issue: the Kubernetes API primitives, the storage client calls, the
`mongorestore` invocation and the local file removal. -/
inductive Op where
  | createNamespacedSecret (ns : String) (body : SecretBody)
  | readNamespacedSecret (nm ns : String)
  | deleteNamespacedSecret (nm ns : String)
  | createNamespacedService (ns : String) (body : V1Service)
  | patchNamespacedService (nm ns : String) (body : V1Service)
  | deleteNamespacedService (nm ns : String)
  | createNamespacedStatefulSet (ns : String) (body : V1Service)
  | patchNamespacedStatefulSet (nm ns : String) (body : V1Service)
  | deleteNamespacedStatefulSet (nm ns : String)
  | listBlobsOp (bucket_name key : String)
  | downloadOp (bucket_name key file_name : String)
  | mongorestoreOp (host file_name : String)
  | removeOp (file_name : String)
deriving DecidableEq

/-- Whether an operation touches the credential secret. -/
def Op.isSecretOp : Op → Bool
  | Op.createNamespacedSecret _ _ => true
  | Op.readNamespacedSecret _ _ => true
  | Op.deleteNamespacedSecret _ _ => true
  | _ => false

/-- The Python exceptions that flow through the modelled code:
`ApiException` (by HTTP status), `TypeError` (wrong call arity),
`SubprocessError` (raised by `RestoreHelper.restore`), `KeyError`
(missing dictionary key) and storage client failures. -/
inductive Exc where
  | apiError (status : Nat)
  | typeError (msg : String)
  | subprocessError (msg : String)
  | keyError (key : String)
  | gcsError (msg : String)
deriving DecidableEq

deriving instance DecidableEq for Except

/-- Python string concatenation `s + x` where `x` may be `None`: unlike
`"{}".format`, concatenating a string with `None` raises `TypeError`. -/
def pyAddStr (s : String) : Option String → Except Exc String
  | some x => Except.ok (s ++ x)
  | none => Except.error (Exc.typeError "can only concatenate str (not \"NoneType\") to str")

/-- The outcome of running a piece of operator code: the trace of collaborator
calls it issued, and either a normal return value or a raised exception. -/
abbrev Res (α : Type) : Type := List Op × Except Exc α

/-- Sequencing of operator code: Python statement order. A raised exception
aborts the continuation; traces concatenate. -/
def Res.andThen {α β : Type} (x : Res α) (f : α → Res β) : Res β :=
  match x with
  | (ops, Except.error e) => (ops, Except.error e)
  | (ops, Except.ok a) =>
    match f a with
    | (ops2, r) => (ops ++ ops2, r)

/-- One call to a Kubernetes API primitive: the call is recorded in the trace
and the collaborator's answer becomes the result, an `ApiErr` becoming a
raised `ApiException`. -/
def Res.api {α : Type} (op : Op) (r : Except ApiErr α) : Res α :=
  match r with
  | Except.ok a => ([op], Except.ok a)
  | Except.error e => ([op], Except.error (Exc.apiError e.status))

/-- The responses of the Kubernetes API client, one function per primitive
used by the modelled code, plus the random password generated for the admin
secret (`KubernetesResources.createRandomPassword`, modelled as an
environment datum since the embedding has no randomness). -/
structure KubeEnv where
  create_namespaced_secret : String → SecretBody → Except ApiErr V1Secret
  read_namespaced_secret : String → String → Except ApiErr V1Secret
  delete_namespaced_secret : String → String → Except ApiErr V1Status
  create_namespaced_service : String → V1Service → Except ApiErr V1Service
  patch_namespaced_service : String → String → V1Service → Except ApiErr V1Service
  delete_namespaced_service : String → String → Except ApiErr V1Status
  create_namespaced_stateful_set : String → V1Service → Except ApiErr V1StatefulSet
  patch_namespaced_stateful_set : String → String → V1Service → Except ApiErr V1StatefulSet
  delete_namespaced_stateful_set : String → String → Except ApiErr V1Status
  randomPassword : String

/-! ## KubernetesService (services/KubernetesService.py)

The event handlers in `EventManager` call the service methods positionally,
exactly as the Python source does; a positional argument value is a `PyVal`
and a call whose arguments do not match the method signature raises
`TypeError`, as Python does at call time. -/

/-- A Python value passed positionally from a handler to a service method. -/
inductive PyVal where
  | obj (cluster_object : Cluster)
  | str (s : String)
deriving DecidableEq

/-- `KubernetesService.OPERATOR_ADMIN_SECRET_FORMAT.format(name)`:
the deterministic admin secret name. -/
def KubernetesService.operatorAdminSecretName (cluster_name : String) : String :=
  cluster_name ++ "-admin-credentials"

/-- `KubernetesService.getSecret`: `read_namespaced_secret(secret_name, namespace)`. -/
def KubernetesService.getSecret (env : KubeEnv) (secret_name ns : String) : Res V1Secret :=
  Res.api (Op.readNamespacedSecret secret_name ns) (env.read_namespaced_secret secret_name ns)

/-- `KubernetesService.createSecret`: build the secret body, try
`create_namespaced_secret`; on an `ApiException` with status 409 ("the secret
already exists") log a warning and return `getSecret` instead; re-raise any
other `ApiException`. -/
def KubernetesService.createSecret (env : KubeEnv) (secret_name ns : String)
    (secret_data : List (String × String)) : Res V1Secret :=
  let secret_body := KubernetesResources.createSecret secret_name ns secret_data
  match env.create_namespaced_secret ns secret_body with
  | Except.ok secret => ([Op.createNamespacedSecret ns secret_body], Except.ok secret)
  | Except.error err =>
    if err.status = 409 then
      match KubernetesService.getSecret env secret_name ns with
      | (ops, r) => (Op.createNamespacedSecret ns secret_body :: ops, r)
    else
      ([Op.createNamespacedSecret ns secret_body], Except.error (Exc.apiError err.status))

/-- `KubernetesService.deleteSecret`: `delete_namespaced_secret(name, namespace, body)`. -/
def KubernetesService.deleteSecret (env : KubeEnv) (nm ns : String) : Res V1Status :=
  Res.api (Op.deleteNamespacedSecret nm ns) (env.delete_namespaced_secret nm ns)

/-- `KubernetesService.createOperatorAdminSecret(cluster_object)`: build the
admin credential data and create the secret under the deterministic name.
Signature: one positional parameter. -/
def KubernetesService.createOperatorAdminSecret (env : KubeEnv) (args : List PyVal) : Res V1Secret :=
  match args with
  | [PyVal.obj cluster_object] =>
    let secret_data := [("username", "root"), ("password", env.randomPassword)]
    KubernetesService.createSecret env
      (KubernetesService.operatorAdminSecretName cluster_object.metadata.name)
      cluster_object.metadata.ns secret_data
  | _ => ([], Except.error (Exc.typeError "createOperatorAdminSecret(): positional arguments do not match (cluster_object)"))

/-- `KubernetesService.deleteOperatorAdminSecret(cluster_name, namespace)`.
Signature: two positional parameters; Python raises `TypeError` when called
with a single argument. -/
def KubernetesService.deleteOperatorAdminSecret (env : KubeEnv) (args : List PyVal) : Res V1Status :=
  match args with
  | [PyVal.str cluster_name, PyVal.str ns] =>
    KubernetesService.deleteSecret env (KubernetesService.operatorAdminSecretName cluster_name) ns
  | [_] => ([], Except.error (Exc.typeError "deleteOperatorAdminSecret() missing 1 required positional argument: namespace"))
  | _ => ([], Except.error (Exc.typeError "deleteOperatorAdminSecret(): positional arguments do not match (cluster_name, namespace)"))

/-- `KubernetesService.createService(cluster_object)`: build the body with
`KubernetesResources.createService` and call `create_namespaced_service`. -/
def KubernetesService.createService (env : KubeEnv) (args : List PyVal) : Res V1Service :=
  match args with
  | [PyVal.obj cluster_object] =>
    let ns := cluster_object.metadata.ns
    let body := KubernetesResources.createService cluster_object
    Res.api (Op.createNamespacedService ns body) (env.create_namespaced_service ns body)
  | _ => ([], Except.error (Exc.typeError "createService(): positional arguments do not match (cluster_object)"))

/-- `KubernetesService.updateService(cluster_object)`: build the body with
`KubernetesResources.createService` and call `patch_namespaced_service`. -/
def KubernetesService.updateService (env : KubeEnv) (args : List PyVal) : Res V1Service :=
  match args with
  | [PyVal.obj cluster_object] =>
    let nm := cluster_object.metadata.name
    let ns := cluster_object.metadata.ns
    let body := KubernetesResources.createService cluster_object
    Res.api (Op.patchNamespacedService nm ns body) (env.patch_namespaced_service nm ns body)
  | _ => ([], Except.error (Exc.typeError "updateService(): positional arguments do not match (cluster_object)"))

/-- `KubernetesService.deleteService(name, namespace)`. Signature: two
positional parameters; Python raises `TypeError` when called with one. -/
def KubernetesService.deleteService (env : KubeEnv) (args : List PyVal) : Res V1Status :=
  match args with
  | [PyVal.str nm, PyVal.str ns] =>
    Res.api (Op.deleteNamespacedService nm ns) (env.delete_namespaced_service nm ns)
  | [_] => ([], Except.error (Exc.typeError "deleteService() missing 1 required positional argument: namespace"))
  | _ => ([], Except.error (Exc.typeError "deleteService(): positional arguments do not match (name, namespace)"))

/-- `KubernetesService.createStatefulSet(cluster_object)`: the source builds
the request body with `KubernetesResources.createService` (line 219 of
KubernetesService.py) and calls `create_namespaced_stateful_set`. -/
def KubernetesService.createStatefulSet (env : KubeEnv) (args : List PyVal) : Res V1StatefulSet :=
  match args with
  | [PyVal.obj cluster_object] =>
    let ns := cluster_object.metadata.ns
    let body := KubernetesResources.createService cluster_object
    Res.api (Op.createNamespacedStatefulSet ns body) (env.create_namespaced_stateful_set ns body)
  | _ => ([], Except.error (Exc.typeError "createStatefulSet(): positional arguments do not match (cluster_object)"))

/-- `KubernetesService.updateStatefulSet(cluster_object)`: the source builds
the request body with `KubernetesResources.createService` (line 230 of
KubernetesService.py) and calls `patch_namespaced_stateful_set`. -/
def KubernetesService.updateStatefulSet (env : KubeEnv) (args : List PyVal) : Res V1StatefulSet :=
  match args with
  | [PyVal.obj cluster_object] =>
    let nm := cluster_object.metadata.name
    let ns := cluster_object.metadata.ns
    let body := KubernetesResources.createService cluster_object
    Res.api (Op.patchNamespacedStatefulSet nm ns body) (env.patch_namespaced_stateful_set nm ns body)
  | _ => ([], Except.error (Exc.typeError "updateStatefulSet(): positional arguments do not match (cluster_object)"))

/-- `KubernetesService.deleteStatefulSet(name, namespace)`. Signature: two
positional parameters; Python raises `TypeError` when called with one. -/
def KubernetesService.deleteStatefulSet (env : KubeEnv) (args : List PyVal) : Res V1Status :=
  match args with
  | [PyVal.str nm, PyVal.str ns] =>
    Res.api (Op.deleteNamespacedStatefulSet nm ns) (env.delete_namespaced_stateful_set nm ns)
  | [_] => ([], Except.error (Exc.typeError "deleteStatefulSet() missing 1 required positional argument: namespace"))
  | _ => ([], Except.error (Exc.typeError "deleteStatefulSet(): positional arguments do not match (name, namespace)"))

/-! ## EventManager (managers/EventManager.py) -/

/-- `EventTypes.ADDED.name`. -/
def EventTypes.ADDED : String := "ADDED"

/-- `EventTypes.MODIFIED.name`. -/
def EventTypes.MODIFIED : String := "MODIFIED"

/-- `EventTypes.DELETED.name`. -/
def EventTypes.DELETED : String := "DELETED"

/-- `EventTypes.__members__`: the allowed Kubernetes event type names. -/
def EventTypes.members : List String :=
  [EventTypes.ADDED, EventTypes.MODIFIED, EventTypes.DELETED]

/-- A raw watch-stream event, a Python dict: `type_` models the value at the
key named type when that key is present, `object` the value at "object". -/
structure RawEvent where
  type_ : Option String
  object : Option Cluster
deriving DecidableEq

/-- `EventManager._add(cluster_object)`: create the operator admin secret,
then the service, then the stateful set. -/
def EventManager._add (env : KubeEnv) (cluster_object : Cluster) : Res Unit :=
  Res.andThen (KubernetesService.createOperatorAdminSecret env [PyVal.obj cluster_object]) (fun _ =>
  Res.andThen (KubernetesService.createService env [PyVal.obj cluster_object]) (fun _ =>
  Res.andThen (KubernetesService.createStatefulSet env [PyVal.obj cluster_object]) (fun _ =>
  ([], Except.ok ()))))

/-- `EventManager._update(cluster_object)`: update the service, then the
stateful set; the admin secret is randomly generated so it cannot be updated. -/
def EventManager._update (env : KubeEnv) (cluster_object : Cluster) : Res Unit :=
  Res.andThen (KubernetesService.updateService env [PyVal.obj cluster_object]) (fun _ =>
  Res.andThen (KubernetesService.updateStatefulSet env [PyVal.obj cluster_object]) (fun _ =>
  ([], Except.ok ())))

/-- `EventManager._delete(cluster_object)`: the source invokes
`deleteStatefulSet(cluster_object)`, `deleteService(cluster_object)` and
`deleteOperatorAdminSecret(cluster_object)`, each with the single positional
argument `cluster_object`, although each of those methods requires the two
positional parameters (name, namespace). -/
def EventManager._delete (env : KubeEnv) (cluster_object : Cluster) : Res Unit :=
  Res.andThen (KubernetesService.deleteStatefulSet env [PyVal.obj cluster_object]) (fun _ =>
  Res.andThen (KubernetesService.deleteService env [PyVal.obj cluster_object]) (fun _ =>
  Res.andThen (KubernetesService.deleteOperatorAdminSecret env [PyVal.obj cluster_object]) (fun _ =>
  ([], Except.ok ()))))

/-- The `event_type_to_action_map` lookup of `_processEvent`, keyed by the
event type name. The final branch is unreachable in `_processEvent` because
membership in `EventTypes.members` is checked before the lookup. -/
def EventManager.eventAction (env : KubeEnv) (t : String) : Cluster → Res Unit :=
  if t = EventTypes.ADDED then EventManager._add env
  else if t = EventTypes.MODIFIED then EventManager._update env
  else if t = EventTypes.DELETED then EventManager._delete env
  else fun _ => ([], Except.ok ())

/-- `EventManager._processEvent(event)`: drop (with a warning) events missing
the type or object key; drop (with a warning) events whose type is not an
allowed event type; otherwise dispatch to the handler, catching `ApiException`
(only) and logging it, so that an API error leaves the processor normally. -/
def EventManager._processEvent (env : KubeEnv) (event : RawEvent) : Res Unit :=
  match event.type_, event.object with
  | none, _ => ([], Except.ok ())
  | _, none => ([], Except.ok ())
  | some t, some o =>
    if EventTypes.members.contains t then
      match EventManager.eventAction env t o with
      | (ops, Except.ok _) => (ops, Except.ok ())
      | (ops, Except.error (Exc.apiError _)) => (ops, Except.ok ())
      | (ops, Except.error e) => (ops, Except.error e)
    else
      ([], Except.ok ())

/-! ## RestoreHelper (helpers/RestoreHelper.py) -/

/-- The storage credentials produced by `_getCredentials`. Per the spec the
base64/JSON decoding of the secret value belongs to external collaborators
(parsing is out of scope), so the decoded credentials are kept as the raw
secret value they came from. -/
structure Creds where
  raw : String
deriving DecidableEq

/-- The responses of the Google cloud storage client and of the external
`mongorestore` executable: the listing under a bucket and key, the outcome of
a blob download, and the outcome (exit) of the restore process. -/
structure StorageEnv where
  listBlobs : String → String → List Blob
  download : String → String → String → Except Exc Unit
  mongorestore : String → String → Except CalledProcessErr String

/-- The collaborators available to `RestoreHelper`: the Kubernetes service it
is constructed with, and the storage/process world. -/
structure RestoreEnv where
  kube : KubeEnv
  storage : StorageEnv

/-- `RestoreHelper.DEFAULT_BACKUP_PREFIX` (constant renamed: the trailing
word of the source name is a reserved token here). -/
def RestoreHelper.DEFAULT_BACKUP_PFX : String := "backups"

/-- Modelled from the spec: `MongoResources.getMemberHostname` lives in
`mongoOperator/helpers/MongoResources.py`, which is not among the given
sources. The spec says the restore target is chosen deterministically as the
member at index replicaCount - 1; only determinism in (pod index, name,
namespace) matters to the claims, the concrete format is a stand-in. -/
def MongoResources.getMemberHostname (pod_index : Nat) (cluster_name ns : String) : String :=
  cluster_name ++ "-" ++ toString pod_index ++ "." ++ cluster_name ++ "-internal." ++ ns

/-- `RestoreHelper._getCredentials(cluster_object)`: read the secret named by
`spec.backups.gcs.service_account.secret_key_ref` via the Kubernetes service
and take the value at its key (a missing key is a Python `KeyError`); the
base64/JSON decode is collaborator work (out of scope, see `Creds`). -/
def RestoreHelper._getCredentials (env : RestoreEnv) (cluster_object : Cluster) : Res Creds :=
  let secret_key := cluster_object.spec.backups.gcs.service_account.secret_key_ref
  Res.andThen (KubernetesService.getSecret env.kube secret_key.name cluster_object.metadata.ns)
    (fun secret =>
      match secret.data.lookup secret_key.key with
      | some v => ([], Except.ok (Creds.mk v))
      | none => ([], Except.error (Exc.keyError secret_key.key)))

/-- The body of the loop of `RestoreHelper._lastBackupFile`: elect the next
listed blob exactly when `last_blob` is `None` or the blob's `time_created`
is strictly greater than the current election's. -/
def RestoreHelper.electBlob (last_blob : Option Blob) (blob : Blob) : Option Blob :=
  match last_blob with
  | none => some blob
  | some lb => if blob.time_created > lb.time_created then some blob else some lb

/-- The loop of `RestoreHelper._lastBackupFile`: fold `electBlob` over the
listing starting from `last_blob = None`. -/
def RestoreHelper.lastBlobOf (blobs : List Blob) : Option Blob :=
  blobs.foldl RestoreHelper.electBlob none

/-- The already-elected case of `electBlob`, on bare blobs (proof support). -/
def RestoreHelper.electStep (cur blob : Blob) : Blob :=
  if blob.time_created > cur.time_created then blob else cur

/-- The election result over a listing known to start with `a` (proof support). -/
def RestoreHelper.bestFrom (a : Blob) (bs : List Blob) : Blob :=
  bs.foldl RestoreHelper.electStep a

/-- `RestoreHelper._lastBackupFile(credentials, bucket_name, key)`: list the
blobs under the key and return the name of the elected blob, or `None` when
the listing is empty. The credentials/client construction is collaborator
work; the listing call is recorded. -/
def RestoreHelper._lastBackupFile (env : RestoreEnv) (_credentials : Creds)
    (bucket_name key : String) : Res (Option String) :=
  let blobs := env.storage.listBlobs bucket_name key
  ([Op.listBlobsOp bucket_name key], Except.ok ((RestoreHelper.lastBlobOf blobs).map Blob.name))

/-- `RestoreHelper.getLastBackup(cluster_object)`: resolve the backup folder
and bucket (with their truthiness fallbacks) and look up the last backup file
under the folder key. -/
def RestoreHelper.getLastBackup (env : RestoreEnv) (cluster_object : Cluster) : Res (Option String) :=
  let gcs := cluster_object.spec.backups.gcs
  let pfx := pyOrDefault gcs.pfx RestoreHelper.DEFAULT_BACKUP_PFX
  let bucket_name := pyOrDefault gcs.restore_bucket gcs.bucket
  Res.andThen (RestoreHelper._getCredentials env cluster_object) (fun credentials =>
    RestoreHelper._lastBackupFile env credentials bucket_name (pfx ++ "/"))

/-- `RestoreHelper._downloadFile(credentials, bucket_name, key, file_name)`:
download the blob at the key to the local file and return the local file name. -/
def RestoreHelper._downloadFile (env : RestoreEnv) (_credentials : Creds)
    (bucket_name key file_name : String) : Res String :=
  match env.storage.download bucket_name key file_name with
  | Except.ok _ => ([Op.downloadOp bucket_name key file_name], Except.ok file_name)
  | Except.error e => ([Op.downloadOp bucket_name key file_name], Except.error e)

/-- `RestoreHelper._downloadBackup(cluster_object, backup_file)`: resolve the
folder and bucket and download the backup file to local scratch storage under
/tmp. The call's keyword arguments are evaluated in source order: the
credentials lookup runs first, the key is built with `"{}/{}".format` (which
renders a `None` backup file as "None"), and the scratch path is built with
the concatenation `"/tmp/" + backup_file`, which raises `TypeError` when
`backup_file` is the Python `None` — before `_downloadFile` is invoked. -/
def RestoreHelper._downloadBackup (env : RestoreEnv) (cluster_object : Cluster)
    (backup_file : Option String) : Res String :=
  let gcs := cluster_object.spec.backups.gcs
  let pfx := pyOrDefault gcs.pfx RestoreHelper.DEFAULT_BACKUP_PFX
  let bucket_name := pyOrDefault gcs.restore_bucket gcs.bucket
  let key := pfx ++ "/" ++ pyStr backup_file
  Res.andThen (RestoreHelper._getCredentials env cluster_object) (fun credentials =>
    match pyAddStr "/tmp/" backup_file with
    | Except.error e => ([], Except.error e)
    | Except.ok file_name =>
      RestoreHelper._downloadFile env credentials bucket_name key file_name)

/-- The restore target hostname of `RestoreHelper.restore`: the member at pod
index `spec.mongodb.replicas - 1` (the last pod). -/
def RestoreHelper.restoreTargetHostname (cluster_object : Cluster) : String :=
  MongoResources.getMemberHostname (cluster_object.spec.mongodb.replicas - 1)
    cluster_object.metadata.name cluster_object.metadata.ns

/-- The message of the `SubprocessError` raised by `RestoreHelper.restore`
when `mongorestore` exits non-zero, carrying the backup file name, the target
hostname, the return code and the captured stderr and stdout. -/
def RestoreHelper.restoreErrorMessage (backup_file : Option String) (hostname : String)
    (err : CalledProcessErr) : String :=
  "Could not restore '" ++ pyStr backup_file ++ "' to '" ++ hostname ++
    "'. Return code: " ++ toString err.returncode ++
    "\n stderr: '" ++ pyStr err.stderr ++ "'\n stdout: '" ++ pyStr err.stdout ++ "'"

/-- `RestoreHelper.restore(cluster_object, backup_file)`: compute the target
hostname, download the backup file, invoke `mongorestore` against the target;
a `CalledProcessError` (non-zero exit) is re-raised as a `SubprocessError`
carrying the backup file, the hostname, the return code and the captured
stderr/stdout; on success (only), `os.remove` deletes the downloaded file
after the invocation. -/
def RestoreHelper.restore (env : RestoreEnv) (cluster_object : Cluster)
    (backup_file : Option String) : Res Unit :=
  let hostname := RestoreHelper.restoreTargetHostname cluster_object
  Res.andThen (RestoreHelper._downloadBackup env cluster_object backup_file)
    (fun downloaded_file =>
      match env.storage.mongorestore hostname downloaded_file with
      | Except.error err =>
        ([Op.mongorestoreOp hostname downloaded_file],
         Except.error (Exc.subprocessError
           (RestoreHelper.restoreErrorMessage backup_file hostname err)))
      | Except.ok _restore_output =>
        ([Op.mongorestoreOp hostname downloaded_file, Op.removeOp downloaded_file],
         Except.ok ()))

/-- `RestoreHelper.restoreIfNeeded(cluster_object)`: when the gcs section has
an attribute restore_from, take it as the backup file name, resolving the
sentinel "latest" through `getLastBackup` (which may yield `None`), then call
`restore` and return `True`; otherwise return `False` with no call at all. -/
def RestoreHelper.restoreIfNeeded (env : RestoreEnv) (cluster_object : Cluster) : Res Bool :=
  match cluster_object.spec.backups.gcs.restore_from with
  | some restore_from =>
    Res.andThen
      (if restore_from = "latest"
        then RestoreHelper.getLastBackup env cluster_object
        else ([], Except.ok (some restore_from)))
      (fun backup_file =>
        Res.andThen (RestoreHelper.restore env cluster_object backup_file) (fun _ =>
          ([], Except.ok true)))
  | none => ([], Except.ok false)

/-! ## Concrete test fixtures -/

/-- A cluster object fixture: given identity and replica count, with the gcs
section pointing at bucket "bkt" and the service account secret "sa-secret"
(key "json"), and the given restore source. -/
def mkCluster (nm ns : String) (replicas : Nat) (restore_from : Option String) : Cluster :=
  { metadata := ⟨nm, ns⟩
    spec :=
      { mongodb := ⟨replicas⟩
        backups :=
          { gcs :=
              { bucket := "bkt"
                restore_bucket := none
                pfx := none
                restore_from := restore_from
                service_account := ⟨⟨"sa-secret", "json"⟩⟩ } } } }

/-- A Kubernetes API environment whose every call fails with HTTP 500. -/
def stubKubeEnv : KubeEnv where
  create_namespaced_secret := fun _ _ => Except.error ⟨500⟩
  read_namespaced_secret := fun _ _ => Except.error ⟨500⟩
  delete_namespaced_secret := fun _ _ => Except.error ⟨500⟩
  create_namespaced_service := fun _ _ => Except.error ⟨500⟩
  patch_namespaced_service := fun _ _ _ => Except.error ⟨500⟩
  delete_namespaced_service := fun _ _ => Except.error ⟨500⟩
  create_namespaced_stateful_set := fun _ _ => Except.error ⟨500⟩
  patch_namespaced_stateful_set := fun _ _ _ => Except.error ⟨500⟩
  delete_namespaced_stateful_set := fun _ _ => Except.error ⟨500⟩
  randomPassword := "hunter2"

/-- A Kubernetes API environment that can serve secrets: reads succeed with a
secret holding the service account JSON under the key "json". -/
def okSecretKube : KubeEnv :=
  { stubKubeEnv with
      read_namespaced_secret := fun nm ns => Except.ok ⟨nm, ns, [("json", "svcacct")]⟩ }

/-- A Kubernetes API environment whose secret creation hits an already-exists
conflict (HTTP 409) while reads return the existing credential secret. -/
def conflictKube : KubeEnv :=
  { stubKubeEnv with
      create_namespaced_secret := fun _ _ => Except.error ⟨409⟩
      read_namespaced_secret := fun nm ns =>
        Except.ok ⟨nm, ns, [("username", "root"), ("password", "existing")]⟩ }

/-- A storage world with an empty bucket listing where downloads and the
restore executable succeed. -/
def emptyListingStorage : StorageEnv where
  listBlobs := fun _ _ => []
  download := fun _ _ _ => Except.ok ()
  mongorestore := fun _ _ => Except.ok "done"

/-- A storage world where the restore executable exits with code 1. -/
def failProcStorage : StorageEnv where
  listBlobs := fun _ _ => []
  download := fun _ _ _ => Except.ok ()
  mongorestore := fun _ _ => Except.error ⟨1, none, some "boom"⟩

/-- The three listed artifacts of the specification example, with creation
timestamps 2021-01-01, 2021-06-01 and 2021-03-01. -/
def threeBlobs : List Blob :=
  [⟨"backups/t1.archive.gz", 20210101⟩,
   ⟨"backups/t2.archive.gz", 20210601⟩,
   ⟨"backups/t3.archive.gz", 20210301⟩]

/-- A storage world listing the three example artifacts. -/
def threeBlobStorage : StorageEnv where
  listBlobs := fun _ _ => threeBlobs
  download := fun _ _ _ => Except.ok ()
  mongorestore := fun _ _ => Except.ok "done"

/-- Restore collaborators with an empty listing and a succeeding executable. -/
def restoreOkEnv : RestoreEnv := ⟨okSecretKube, emptyListingStorage⟩

/-- Restore collaborators with a failing restore executable. -/
def restoreFailEnv : RestoreEnv := ⟨okSecretKube, failProcStorage⟩

/-- Restore collaborators listing the three example artifacts. -/
def listingEnv : RestoreEnv := ⟨okSecretKube, threeBlobStorage⟩

/-- A cluster requesting a restore from the sentinel source "latest". -/
def clusterLatest : Cluster := mkCluster "mongo" "default" 3 (some "latest")

/-- A cluster requesting a restore of the named artifact b2.archive.gz. -/
def clusterNamed : Cluster := mkCluster "mongodb" "prod" 2 (some "b2.archive.gz")

/-- A cluster with no declared restore source. -/
def clusterPlain : Cluster := mkCluster "web-mongo" "staging" 3 none

/-- A second cluster with no declared restore source, for the Deleted events. -/
def clusterPay : Cluster := mkCluster "payments-mongo" "default" 3 none

/-! ## Helper lemmas -/

/-- The trace of one API primitive call is that call, whatever the answer. -/
theorem Res.api_ops {α : Type} (op : Op) (r : Except ApiErr α) : (Res.api op r).1 = [op] := by
  cases r <;> rfl

/-- `_getCredentials` issues exactly the read of the service-account secret. -/
theorem RestoreHelper.getCredentials_trace (env : RestoreEnv) (c : Cluster) :
    (RestoreHelper._getCredentials env c).1 =
      [Op.readNamespacedSecret c.spec.backups.gcs.service_account.secret_key_ref.name
        c.metadata.ns] := by
  unfold RestoreHelper._getCredentials KubernetesService.getSecret Res.api Res.andThen
  cases h : env.kube.read_namespaced_secret c.spec.backups.gcs.service_account.secret_key_ref.name
      c.metadata.ns with
  | error e => simp [h]
  | ok s =>
    cases h2 : s.data.lookup c.spec.backups.gcs.service_account.secret_key_ref.key with
    | none => simp [h, h2]
    | some v => simp [h, h2]

/-- `_downloadBackup` never removes a file: its trace holds only the
service-account secret read and the download call. -/
theorem RestoreHelper.downloadBackup_no_remove (env : RestoreEnv) (c : Cluster)
    (bf : Option String) (s : String) :
    Op.removeOp s ∉ (RestoreHelper._downloadBackup env c bf).1 := by
  unfold RestoreHelper._downloadBackup Res.andThen
  cases h : RestoreHelper._getCredentials env c with
  | mk gops gr =>
    have hops := RestoreHelper.getCredentials_trace env c
    rw [h] at hops
    simp only [Prod.fst] at hops
    cases gr with
    | error e => simp [hops]
    | ok creds =>
      cases h3 : pyAddStr "/tmp/" bf with
      | error e => simp [hops, h3]
      | ok fn =>
        unfold RestoreHelper._downloadFile
        cases h2 : env.storage.download (pyOrDefault c.spec.backups.gcs.restore_bucket
            c.spec.backups.gcs.bucket)
            (pyOrDefault c.spec.backups.gcs.pfx RestoreHelper.DEFAULT_BACKUP_PFX ++ "/" ++
              pyStr bf) fn with
        | error e => simp [hops, h3, h2]
        | ok u => simp [hops, h3, h2]

/-- Folding the election loop from an already-elected blob is the bare-blob
fold (proof support). -/
theorem RestoreHelper.foldl_elect_some (bs : List Blob) :
    ∀ a : Blob,
      bs.foldl RestoreHelper.electBlob (some a) = some (RestoreHelper.bestFrom a bs) := by
  induction bs with
  | nil => intro a; rfl
  | cons b bs ih =>
    intro a
    have h1 : RestoreHelper.electBlob (some a) b = some (RestoreHelper.electStep a b) := by
      show (if b.time_created > a.time_created then some b else some a)
          = some (if b.time_created > a.time_created then b else a)
      split <;> rfl
    calc (b :: bs).foldl RestoreHelper.electBlob (some a)
        = bs.foldl RestoreHelper.electBlob (RestoreHelper.electBlob (some a) b) := rfl
      _ = bs.foldl RestoreHelper.electBlob (some (RestoreHelper.electStep a b)) := by rw [h1]
      _ = some (RestoreHelper.bestFrom (RestoreHelper.electStep a b) bs) := ih _
      _ = some (RestoreHelper.bestFrom a (b :: bs)) := rfl

/-- The elected blob is the first-seen maximum: the listing headed by `a`
splits around the election, everything before it is strictly older, and
nothing in the listing is newer (proof support). -/
theorem RestoreHelper.bestFrom_spec (bs : List Blob) :
    ∀ a : Blob,
      ∃ l1 l2, a :: bs = l1 ++ (RestoreHelper.bestFrom a bs) :: l2 ∧
        (∀ x ∈ l1, x.time_created < (RestoreHelper.bestFrom a bs).time_created) ∧
        (∀ x ∈ a :: bs, x.time_created ≤ (RestoreHelper.bestFrom a bs).time_created) := by
  induction bs with
  | nil =>
    intro a
    refine ⟨[], [], rfl, by simp, ?_⟩
    intro x hx
    rcases List.mem_cons.mp hx with rfl | hx2
    · exact le_refl _
    · simp at hx2
  | cons c cs ih =>
    intro a
    by_cases h : c.time_created > a.time_created
    · have he : RestoreHelper.bestFrom a (c :: cs) = RestoreHelper.bestFrom c cs := by
        show RestoreHelper.bestFrom (RestoreHelper.electStep a c) cs = RestoreHelper.bestFrom c cs
        rw [RestoreHelper.electStep, if_pos h]
      obtain ⟨l1, l2, hsplit, hl1, hall⟩ := ih c
      rw [he]
      refine ⟨a :: l1, l2, by rw [List.cons_append, ← hsplit], ?_, ?_⟩
      · intro x hx
        rcases List.mem_cons.mp hx with rfl | hx2
        · exact lt_of_lt_of_le h (hall c (List.mem_cons_self c cs))
        · exact hl1 x hx2
      · intro x hx
        rcases List.mem_cons.mp hx with rfl | hx2
        · exact le_of_lt (lt_of_lt_of_le h (hall c (List.mem_cons_self c cs)))
        · exact hall x hx2
    · have he : RestoreHelper.bestFrom a (c :: cs) = RestoreHelper.bestFrom a cs := by
        show RestoreHelper.bestFrom (RestoreHelper.electStep a c) cs = RestoreHelper.bestFrom a cs
        rw [RestoreHelper.electStep, if_neg h]
      have hca : c.time_created ≤ a.time_created := Nat.le_of_not_lt h
      obtain ⟨l1, l2, hsplit, hl1, hall⟩ := ih a
      rw [he]
      cases l1 with
      | nil =>
        have ha : a = RestoreHelper.bestFrom a cs := by
          have h3 : a :: cs = RestoreHelper.bestFrom a cs :: l2 := by simpa using hsplit
          exact (List.cons.injEq _ _ _ _ ▸ h3 : _ ∧ _).1
        refine ⟨[], c :: cs, by rw [List.nil_append, ← ha], by simp, ?_⟩
        intro x hx
        rcases List.mem_cons.mp hx with rfl | hx2
        · exact le_of_eq (congrArg Blob.time_created ha)
        · rcases List.mem_cons.mp hx2 with rfl | hx3
          · exact le_trans hca (hall a (List.mem_cons_self a cs))
          · exact hall x (List.mem_cons_of_mem a hx3)
      | cons a0 l1t =>
        have h3 : a = a0 ∧ cs = l1t ++ RestoreHelper.bestFrom a cs :: l2 := by
          have h4 : a :: cs = a0 :: (l1t ++ RestoreHelper.bestFrom a cs :: l2) := by
            simpa using hsplit
          exact (List.cons.injEq _ _ _ _ ▸ h4 : _ ∧ _)
        have hain : a.time_created < (RestoreHelper.bestFrom a cs).time_created :=
          h3.1 ▸ hl1 a0 (List.mem_cons_self a0 l1t)
        refine ⟨a :: c :: l1t, l2, ?_, ?_, ?_⟩
        · rw [List.cons_append, List.cons_append]
          rw [← h3.2]
        · intro x hx
          rcases List.mem_cons.mp hx with rfl | hx2
          · exact hain
          · rcases List.mem_cons.mp hx2 with rfl | hx3
            · exact lt_of_le_of_lt hca hain
            · exact hl1 x (h3.1 ▸ List.mem_cons_of_mem a0 hx3)
        · intro x hx
          rcases List.mem_cons.mp hx with hxa | hx2
          · rw [hxa]
            exact hall a (List.mem_cons_self a cs)
          · rcases List.mem_cons.mp hx2 with hxc | hx3
            · rw [hxc]
              exact le_trans hca (hall a (List.mem_cons_self a cs))
            · exact hall x (List.mem_cons_of_mem a hx3)


/-! ## The claims -/

/-- C1: code-bug demonstration. Over an empty listing the latest-artifact
lookup does resolve to no artifact (`lastBlobOf [] = none`), but
`restoreIfNeeded` on a cluster whose declared restore source is the sentinel
"latest" does not then return false without restoring: it proceeds into
`restore` with the Python `None` as backup file, where building the local
scratch path "/tmp/" + None raises a `TypeError` that propagates out of
`restoreIfNeeded` — after the two secret reads and the listing, with no
download, no restore-executable invocation, and no false returned. -/
theorem c1_empty_listing_raises_type_error :
    RestoreHelper.lastBlobOf [] = none ∧
    RestoreHelper.restoreIfNeeded restoreOkEnv clusterLatest =
      ([Op.readNamespacedSecret "sa-secret" "default",
        Op.listBlobsOp "bkt" "backups/",
        Op.readNamespacedSecret "sa-secret" "default"],
       Except.error (Exc.typeError
         "can only concatenate str (not \"NoneType\") to str")) := by
  decide

/-- C2: code-bug demonstration. A Deleted event does not issue the three
deletions: the handler invokes `deleteStatefulSet` with the cluster object as
its only positional argument while the method requires (name, namespace), so
a `TypeError` is raised before any deletion is issued, and it propagates out
of the event processor (only `ApiException` is caught). -/
theorem c2_deleted_event_raises_type_error :
    EventManager._processEvent stubKubeEnv ⟨some EventTypes.DELETED, some clusterPlain⟩ =
      ([], Except.error (Exc.typeError
        "deleteStatefulSet() missing 1 required positional argument: namespace")) := by
  decide

/-- C10: `createStatefulSet` and `updateStatefulSet` build their request body
with the same constructor `KubernetesResources.createService` used by
`createService` and `updateService`, so for every cluster object the body
sent to the stateful-set create/update call equals the body sent to the
service create/update call. -/
theorem c10_stateful_set_body_equals_service_body (env : KubeEnv) (c : Cluster) :
    (KubernetesService.createStatefulSet env [PyVal.obj c]).1 =
      [Op.createNamespacedStatefulSet c.metadata.ns (KubernetesResources.createService c)] ∧
    (KubernetesService.createService env [PyVal.obj c]).1 =
      [Op.createNamespacedService c.metadata.ns (KubernetesResources.createService c)] ∧
    (KubernetesService.updateStatefulSet env [PyVal.obj c]).1 =
      [Op.patchNamespacedStatefulSet c.metadata.name c.metadata.ns
        (KubernetesResources.createService c)] ∧
    (KubernetesService.updateService env [PyVal.obj c]).1 =
      [Op.patchNamespacedService c.metadata.name c.metadata.ns
        (KubernetesResources.createService c)] := by
  refine ⟨?_, ?_, ?_, ?_⟩ <;>
    simp [KubernetesService.createStatefulSet, KubernetesService.createService,
      KubernetesService.updateStatefulSet, KubernetesService.updateService, Res.api_ops]

/-- C7: over every non-empty listing the elected artifact is the first-seen
maximum: the listing splits as l1 ++ b :: l2 where the election returns b,
every artifact before b is strictly older (so on equal timestamps the
first-seen artifact wins), and no listed artifact is newer; in particular
over creation timestamps [2021-01-01, 2021-06-01, 2021-03-01] the lookup
returns the second artifact, and on a two-way tie the first is kept. -/
theorem c7_latest_artifact_first_seen_max :
    (∀ blobs : List Blob, blobs ≠ [] →
      ∃ l1 b l2, blobs = l1 ++ b :: l2 ∧
        RestoreHelper.lastBlobOf blobs = some b ∧
        (∀ x ∈ l1, x.time_created < b.time_created) ∧
        (∀ x ∈ blobs, x.time_created ≤ b.time_created)) ∧
    RestoreHelper._lastBackupFile listingEnv ⟨"svcacct"⟩ "bkt" "backups/" =
      ([Op.listBlobsOp "bkt" "backups/"], Except.ok (some "backups/t2.archive.gz")) ∧
    RestoreHelper.lastBlobOf [⟨"tieA", 20210101⟩, ⟨"tieB", 20210101⟩] =
      some ⟨"tieA", 20210101⟩ := by
  refine ⟨?_, by decide, by decide⟩
  intro blobs hne
  cases blobs with
  | nil => exact absurd rfl hne
  | cons a bs =>
    obtain ⟨l1, l2, hsplit, hl1, hall⟩ := RestoreHelper.bestFrom_spec bs a
    exact ⟨l1, RestoreHelper.bestFrom a bs, l2, hsplit,
      RestoreHelper.foldl_elect_some bs a, hl1, hall⟩

/-- C7 witness: the general statement applied to the example listing. -/
theorem c7_witness :
    ∃ l1 b l2, threeBlobs = l1 ++ b :: l2 ∧
      RestoreHelper.lastBlobOf threeBlobs = some b ∧
      (∀ x ∈ l1, x.time_created < b.time_created) ∧
      (∀ x ∈ threeBlobs, x.time_created ≤ b.time_created) :=
  c7_latest_artifact_first_seen_max.1 threeBlobs (by decide)

/-- C3 counterexample: with a restore executable exiting non-zero, the
downloaded scratch file is NOT removed afterwards — no removal appears in the
trace and the SubprocessError is raised instead, contradicting "cleanup
happens regardless of outcome". -/
theorem c3_counterexample_no_cleanup_on_failure :
    Op.removeOp "/tmp/c3.archive.gz" ∉
      (RestoreHelper.restore restoreFailEnv clusterNamed (some "c3.archive.gz")).1 ∧
    (RestoreHelper.restore restoreFailEnv clusterNamed (some "c3.archive.gz")).2 =
      Except.error (Exc.subprocessError
        (RestoreHelper.restoreErrorMessage (some "c3.archive.gz")
          (RestoreHelper.restoreTargetHostname clusterNamed) ⟨1, none, some "boom"⟩)) := by
  decide

/-- C3 (amended): after a successful download, the scratch file is removed
after the restore executable is invoked in the success case only; when the
executable exits non-zero, the SubprocessError is raised before cleanup and
the downloaded file is not removed. -/
theorem c3_cleanup_only_on_success (env : RestoreEnv) (c : Cluster) (bf : Option String)
    (dops : List Op) (f : String)
    (hdl : RestoreHelper._downloadBackup env c bf = (dops, Except.ok f)) :
    (∀ out, env.storage.mongorestore (RestoreHelper.restoreTargetHostname c) f =
        Except.ok out →
      RestoreHelper.restore env c bf =
        (dops ++ [Op.mongorestoreOp (RestoreHelper.restoreTargetHostname c) f,
          Op.removeOp f], Except.ok ())) ∧
    (∀ err, env.storage.mongorestore (RestoreHelper.restoreTargetHostname c) f =
        Except.error err →
      RestoreHelper.restore env c bf =
        (dops ++ [Op.mongorestoreOp (RestoreHelper.restoreTargetHostname c) f],
         Except.error (Exc.subprocessError
           (RestoreHelper.restoreErrorMessage bf (RestoreHelper.restoreTargetHostname c) err))) ∧
      Op.removeOp f ∉ (RestoreHelper.restore env c bf).1) := by
  have hno : Op.removeOp f ∉ dops := by
    have h := RestoreHelper.downloadBackup_no_remove env c bf f
    rw [hdl] at h
    simpa using h
  constructor
  · intro out hout
    simp only [RestoreHelper.restore, Res.andThen, hdl, hout]
  · intro err herr
    have hrest : RestoreHelper.restore env c bf =
        (dops ++ [Op.mongorestoreOp (RestoreHelper.restoreTargetHostname c) f],
         Except.error (Exc.subprocessError
           (RestoreHelper.restoreErrorMessage bf (RestoreHelper.restoreTargetHostname c)
             err))) := by
      simp only [RestoreHelper.restore, Res.andThen, hdl, herr]
    refine ⟨hrest, ?_⟩
    rw [hrest]
    simp [hno]

/-- C3 witness: the amended theorem applied to the failing-executable world. -/
theorem c3_witness :
    RestoreHelper.restore restoreFailEnv clusterNamed (some "b2.archive.gz") =
      ([Op.readNamespacedSecret "sa-secret" "prod",
        Op.downloadOp "bkt" "backups/b2.archive.gz" "/tmp/b2.archive.gz",
        Op.mongorestoreOp (RestoreHelper.restoreTargetHostname clusterNamed)
          "/tmp/b2.archive.gz"],
       Except.error (Exc.subprocessError
         (RestoreHelper.restoreErrorMessage (some "b2.archive.gz")
           (RestoreHelper.restoreTargetHostname clusterNamed) ⟨1, none, some "boom"⟩))) ∧
    Op.removeOp "/tmp/b2.archive.gz" ∉
      (RestoreHelper.restore restoreFailEnv clusterNamed (some "b2.archive.gz")).1 := by
  have h := (c3_cleanup_only_on_success restoreFailEnv clusterNamed (some "b2.archive.gz")
      [Op.readNamespacedSecret "sa-secret" "prod",
       Op.downloadOp "bkt" "backups/b2.archive.gz" "/tmp/b2.archive.gz"]
      "/tmp/b2.archive.gz" (by decide)).2 ⟨1, none, some "boom"⟩ (by decide)
  exact ⟨h.1, h.2⟩

/-- C9: when the restore executable exits non-zero, `restore` raises a
SubprocessError whose message carries the requested artifact name, the target
member hostname, the process exit code and the captured stderr and stdout;
the failure is not swallowed. -/
theorem c9_nonzero_exit_raises_subprocess_error (env : RestoreEnv) (c : Cluster)
    (bf : Option String) (dops : List Op) (f : String) (err : CalledProcessErr)
    (hdl : RestoreHelper._downloadBackup env c bf = (dops, Except.ok f))
    (hrun : env.storage.mongorestore (RestoreHelper.restoreTargetHostname c) f =
      Except.error err) :
    RestoreHelper.restore env c bf =
      (dops ++ [Op.mongorestoreOp (RestoreHelper.restoreTargetHostname c) f],
       Except.error (Exc.subprocessError
         ("Could not restore '" ++ pyStr bf ++ "' to '" ++
          RestoreHelper.restoreTargetHostname c ++ "'. Return code: " ++
          toString err.returncode ++ "\n stderr: '" ++ pyStr err.stderr ++
          "'\n stdout: '" ++ pyStr err.stdout ++ "'"))) := by
  simp only [RestoreHelper.restore, Res.andThen, hdl, hrun,
    RestoreHelper.restoreErrorMessage]

/-- C9 witness: the theorem applied to the failing-executable world. -/
theorem c9_witness :
    RestoreHelper.restore restoreFailEnv clusterNamed (some "b9.archive.gz") =
      ([Op.readNamespacedSecret "sa-secret" "prod",
        Op.downloadOp "bkt" "backups/b9.archive.gz" "/tmp/b9.archive.gz",
        Op.mongorestoreOp (RestoreHelper.restoreTargetHostname clusterNamed)
          "/tmp/b9.archive.gz"],
       Except.error (Exc.subprocessError
         ("Could not restore '" ++ pyStr (some "b9.archive.gz") ++ "' to '" ++
          RestoreHelper.restoreTargetHostname clusterNamed ++ "'. Return code: " ++
          toString (1 : Int) ++ "\n stderr: '" ++ pyStr none ++
          "'\n stdout: '" ++ pyStr (some "boom") ++ "'"))) :=
  c9_nonzero_exit_raises_subprocess_error restoreFailEnv clusterNamed (some "b9.archive.gz")
    [Op.readNamespacedSecret "sa-secret" "prod",
     Op.downloadOp "bkt" "backups/b9.archive.gz" "/tmp/b9.archive.gz"]
    "/tmp/b9.archive.gz" ⟨1, none, some "boom"⟩ (by decide) (by decide)

/-- C4: when creating the operator admin credential secret hits an
already-exists conflict (HTTP 409) from the API, `createSecret` does not
raise: it fetches the existing secret and returns it, so a second Added event
for the same identity succeeds at secret creation. -/
theorem c4_secret_conflict_fetches_existing (env : KubeEnv) (c : Cluster) (err : ApiErr)
    (s : V1Secret)
    (hconflict : env.create_namespaced_secret c.metadata.ns
      (KubernetesResources.createSecret
        (KubernetesService.operatorAdminSecretName c.metadata.name) c.metadata.ns
        [("username", "root"), ("password", env.randomPassword)]) = Except.error err)
    (h409 : err.status = 409)
    (hget : env.read_namespaced_secret
      (KubernetesService.operatorAdminSecretName c.metadata.name) c.metadata.ns =
      Except.ok s) :
    KubernetesService.createOperatorAdminSecret env [PyVal.obj c] =
      ([Op.createNamespacedSecret c.metadata.ns
          (KubernetesResources.createSecret
            (KubernetesService.operatorAdminSecretName c.metadata.name) c.metadata.ns
            [("username", "root"), ("password", env.randomPassword)]),
        Op.readNamespacedSecret (KubernetesService.operatorAdminSecretName c.metadata.name)
          c.metadata.ns],
       Except.ok s) := by
  simp only [KubernetesService.createOperatorAdminSecret, KubernetesService.createSecret,
    KubernetesService.getSecret, Res.api, hconflict, h409, if_true]
  simp [hget]

/-- C4 witness: the theorem applied to the conflicting-create environment. -/
theorem c4_witness :
    KubernetesService.createOperatorAdminSecret conflictKube [PyVal.obj clusterPlain] =
      ([Op.createNamespacedSecret "staging"
          (KubernetesResources.createSecret "web-mongo-admin-credentials" "staging"
            [("username", "root"), ("password", "hunter2")]),
        Op.readNamespacedSecret "web-mongo-admin-credentials" "staging"],
       Except.ok ⟨"web-mongo-admin-credentials", "staging",
         [("username", "root"), ("password", "existing")]⟩) :=
  c4_secret_conflict_fetches_existing conflictKube clusterPlain ⟨409⟩
    ⟨"web-mongo-admin-credentials", "staging",
      [("username", "root"), ("password", "existing")]⟩
    (by decide) (by decide) (by decide)

/-- C5: malformed events (missing the type key or the object key) and events
whose type is not an allowed event type are logged and dropped before
dispatch: processing issues no resource operation and raises nothing. -/
theorem c5_invalid_events_are_dropped (env : KubeEnv) (event : RawEvent)
    (h : event.type_ = none ∨ event.object = none ∨
      (∀ t, event.type_ = some t → EventTypes.members.contains t = false)) :
    EventManager._processEvent env event = ([], Except.ok ()) := by
  rcases event with ⟨ty, ob⟩
  rcases h with h | h | h
  · have h2 : ty = none := h
    subst h2
    cases ob <;> rfl
  · have h2 : ob = none := h
    subst h2
    cases ty <;> rfl
  · cases ty with
    | none => cases ob <;> rfl
    | some t =>
      have hm : EventTypes.members.contains t = false := h t rfl
      have hm2 : t ∉ EventTypes.members := by simpa using hm
      cases ob with
      | none => rfl
      | some o => simp [EventManager._processEvent, hm2]

/-- C5 witness: an event of the unknown type "BOGUS" is dropped. -/
theorem c5_witness :
    EventManager._processEvent stubKubeEnv ⟨some "BOGUS", some clusterPlain⟩ =
      ([], Except.ok ()) :=
  c5_invalid_events_are_dropped stubKubeEnv ⟨some "BOGUS", some clusterPlain⟩
    (Or.inr (Or.inr (fun t ht => by
      have h2 : some "BOGUS" = some t := ht
      injection h2 with h3
      cases h3
      decide)))

/-- C6: handling a Modified event issues only the service patch and the
stateful-set patch (the trace is the service patch alone when it fails, or
both patches in order), and no operation in the trace touches the credential
secret. -/
theorem c6_modified_leaves_secret_untouched (env : KubeEnv) (c : Cluster) :
    ((EventManager._processEvent env ⟨some EventTypes.MODIFIED, some c⟩).1.all
      (fun op => !op.isSecretOp)) = true ∧
    ((EventManager._processEvent env ⟨some EventTypes.MODIFIED, some c⟩).1 =
      [Op.patchNamespacedService c.metadata.name c.metadata.ns
        (KubernetesResources.createService c)] ∨
     (EventManager._processEvent env ⟨some EventTypes.MODIFIED, some c⟩).1 =
      [Op.patchNamespacedService c.metadata.name c.metadata.ns
        (KubernetesResources.createService c),
       Op.patchNamespacedStatefulSet c.metadata.name c.metadata.ns
        (KubernetesResources.createService c)]) := by
  have hmem : EventTypes.MODIFIED ∈ EventTypes.members := by decide
  have hact : EventManager.eventAction env EventTypes.MODIFIED = EventManager._update env := rfl
  cases h1 : env.patch_namespaced_service c.metadata.name c.metadata.ns
      (KubernetesResources.createService c) with
  | error e1 =>
    have hp : EventManager._processEvent env ⟨some EventTypes.MODIFIED, some c⟩ =
        ([Op.patchNamespacedService c.metadata.name c.metadata.ns
            (KubernetesResources.createService c)], Except.ok ()) := by
      simp [EventManager._processEvent, hmem, hact, EventManager._update,
        KubernetesService.updateService, Res.api, Res.andThen, h1]
    rw [hp]
    exact ⟨rfl, Or.inl rfl⟩
  | ok v1 =>
    cases h2 : env.patch_namespaced_stateful_set c.metadata.name c.metadata.ns
        (KubernetesResources.createService c) with
    | error e2 =>
      have hp : EventManager._processEvent env ⟨some EventTypes.MODIFIED, some c⟩ =
          ([Op.patchNamespacedService c.metadata.name c.metadata.ns
              (KubernetesResources.createService c),
            Op.patchNamespacedStatefulSet c.metadata.name c.metadata.ns
              (KubernetesResources.createService c)], Except.ok ()) := by
        simp [EventManager._processEvent, hmem, hact, EventManager._update,
          KubernetesService.updateService, KubernetesService.updateStatefulSet,
          Res.api, Res.andThen, h1, h2]
      rw [hp]
      exact ⟨rfl, Or.inr rfl⟩
    | ok v2 =>
      have hp : EventManager._processEvent env ⟨some EventTypes.MODIFIED, some c⟩ =
          ([Op.patchNamespacedService c.metadata.name c.metadata.ns
              (KubernetesResources.createService c),
            Op.patchNamespacedStatefulSet c.metadata.name c.metadata.ns
              (KubernetesResources.createService c)], Except.ok ()) := by
        simp [EventManager._processEvent, hmem, hact, EventManager._update,
          KubernetesService.updateService, KubernetesService.updateStatefulSet,
          Res.api, Res.andThen, h1, h2]
      rw [hp]
      exact ⟨rfl, Or.inr rfl⟩

/-- C8 counterexample: on a Deleted event, the TypeError raised at the first
resource-operation invocation inside the handler propagates out of the event
processor instead of being caught, so processing does not return normally. -/
theorem c8_counterexample_type_error_escapes :
    (EventManager._processEvent stubKubeEnv ⟨some EventTypes.DELETED, some clusterPay⟩).2 =
      Except.error (Exc.typeError
        "deleteStatefulSet() missing 1 required positional argument: namespace") := by
  decide

/-- C8 (amended): an ApiException raised by a resource operation inside the
dispatched handler is caught by the event processor, which logs it and
returns normally with the operations issued so far; only API errors are
caught — other failures, such as the TypeError raised by the Deleted
handler's wrong-arity delete calls, propagate. -/
theorem c8_api_errors_are_contained (env : KubeEnv) (t : String) (o : Cluster)
    (ops : List Op) (s : Nat)
    (hmem : EventTypes.members.contains t = true)
    (hfail : EventManager.eventAction env t o = (ops, Except.error (Exc.apiError s))) :
    EventManager._processEvent env ⟨some t, some o⟩ = (ops, Except.ok ()) := by
  have hmem2 : t ∈ EventTypes.members := by simpa using hmem
  simp [EventManager._processEvent, hmem2, hfail]

/-- C8 witness: a Modified event whose service patch fails with HTTP 500 is
still handled normally. -/
theorem c8_witness :
    EventManager._processEvent stubKubeEnv ⟨some EventTypes.MODIFIED, some clusterPlain⟩ =
      ([Op.patchNamespacedService "web-mongo" "staging"
          (KubernetesResources.createService clusterPlain)], Except.ok ()) :=
  c8_api_errors_are_contained stubKubeEnv EventTypes.MODIFIED clusterPlain
    [Op.patchNamespacedService "web-mongo" "staging"
      (KubernetesResources.createService clusterPlain)] 500 (by decide) (by decide)
